import Mathlib

/-!
# Verification of the pcli2-mco MCP server core

A shallow embedding, in Lean 4, of the core logic of the `pcli2-mco`
repository (a Rust MCP server):

* `src/mcp.rs` — the JSON-RPC protocol handler (`parse_rpc_request`,
  `handle_mcp`, `json_ok`, `json_error`);
* `src/pcli.rs` — the tool dispatcher (`call_tool`), the per-tool argument
  mappers (`run_pcli2_*`), argument validation (`validate_range_f64`,
  `validate_range_u64`, `require_uuid_or_path`, …) and the bounded stream
  capture (`read_limited`);
* `src/thumbnail.rs` — the thumbnail cache (`generate_cache_key`,
  `save_thumbnail`, `load_thumbnail`, `is_expired`, `remove_thumbnail`,
  `cleanup_expired`).

Modelling conventions:

* JSON values (`serde_json::Value`) are modelled by the inductive `Json`
  below, with numbers as rationals (`ℚ`).  `serde_json` objects are
  modelled as association lists from `String` to `Json`; lookups find the
  first matching key, and the cache-directory model keeps keys unique.
* Asynchronous I/O collaborators (the spawned subprocess, the filesystem,
  the wall clock) are passed in explicitly: the subprocess is a function
  `List String → String → Except String String` (argv, label ↦ captured
  result), streams are lists of chunks, and clock reads are explicit
  timestamp arguments.
* Rust `Result<T, String>` becomes `Except String T`.
-/

set_option autoImplicit false

/-- Model of `serde_json::Value`.  Numbers are modelled as rationals;
object fields as an association list in insertion order. -/
inductive Json where
  | null : Json
  | bool (b : Bool) : Json
  | num (q : ℚ) : Json
  | str (s : String) : Json
  | arr (elems : List Json) : Json
  | obj (fields : List (String × Json)) : Json

/-- Model of `Value::is_null`. -/
def Json.isNull : Json → Bool
  | Json.null => true
  | _ => false

/-- First-match lookup in an association list (model of map lookup on a
`serde_json` object's field map, whose keys are unique). -/
def lookupKey {α : Type} (k : String) : List (String × α) → Option α
  | [] => none
  | (k', v) :: rest => if k' = k then some v else lookupKey k rest

/-- Model of `serde_json::Value::get(key)`: field lookup on an object,
`None` on any other value. -/
def Json.getKey : Json → String → Option Json
  | Json.obj fields, k => lookupKey k fields
  | _, _ => none

/-- Model of `Value::as_str`. -/
def Json.asStr : Json → Option String
  | Json.str s => some s
  | _ => none

/-- Model of `Value::as_f64`: any JSON number (the model ignores the
lossiness of `u64`/`i64` → `f64` conversion, which no claim depends on). -/
def Json.asF64 : Json → Option ℚ
  | Json.num q => some q
  | _ => none

/-- Model of `Value::as_u64`: a number that is a non-negative integer
below `2^64`.  (The real `as_u64` also returns `None` for JSON text that
parsed as a float such as `5.0`; the distinction is invisible in the
rational model and no claim depends on it.) -/
def Json.asU64 : Json → Option Nat
  | Json.num q =>
      if q.den = 1 ∧ 0 ≤ q.num ∧ q.num < (2 : ℤ) ^ 64 then some q.num.toNat else none
  | _ => none

/-- Model of `Value::as_bool`. -/
def Json.asBool : Json → Option Bool
  | Json.bool b => some b
  | _ => none

/-- Model of `Value::as_object` (up to the map representation). -/
def Json.asObj : Json → Option (List (String × Json))
  | Json.obj fields => some fields
  | _ => none

/-- `RpcRequest` from `src/mcp.rs`: the decoded JSON-RPC envelope. -/
structure RpcRequest where
  jsonrpc : Option String
  id : Option Json
  method : Option String
  params : Option Json

/-- `parse_rpc_request` from `src/mcp.rs`: requires a JSON object;
`jsonrpc` and `method`, when present, must be strings; `id` and `params`
are taken as-is. -/
def parse_rpc_request (value : Json) : Except String RpcRequest :=
  match value.asObj with
  | none => Except.error "Invalid Request: expected a JSON object"
  | some fields =>
    match lookupKey "jsonrpc" fields with
    | some (Json.str s) => parseAfterJsonrpc fields (some s)
    | some _ => Except.error "Invalid Request: 'jsonrpc' must be a string"
    | none => parseAfterJsonrpc fields none
where
  /-- The tail of `parse_rpc_request` after the `jsonrpc` field has been
  read: decode `method`, then assemble the request. -/
  parseAfterJsonrpc (fields : List (String × Json)) (jsonrpc : Option String) :
      Except String RpcRequest :=
    match lookupKey "method" fields with
    | some (Json.str s) =>
        Except.ok
          { jsonrpc := jsonrpc, id := lookupKey "id" fields, method := some s,
            params := lookupKey "params" fields }
    | some _ => Except.error "Invalid Request: 'method' must be a string"
    | none =>
        Except.ok
          { jsonrpc := jsonrpc, id := lookupKey "id" fields, method := none,
            params := lookupKey "params" fields }

/-- The three response shapes `handle_mcp` can produce: an empty `200 OK`
(notification), a JSON-RPC success envelope (`RpcResponse`), or a JSON-RPC
error envelope (`RpcErrorResponse` with an `RpcErrorBody`).  The serialized
envelopes always carry `jsonrpc: "2.0"`, so only the varying fields are
recorded. -/
inductive McpResponse where
  | empty : McpResponse
  | success (id : Json) (result : Json) : McpResponse
  | failure (id : Json) (code : Int) (message : String) : McpResponse

/-- `json_ok` from `src/mcp.rs`. -/
def json_ok (id : Json) (result : Json) : McpResponse :=
  McpResponse.success id result

/-- `json_error` from `src/mcp.rs`. -/
def json_error (id : Json) (code : Int) (message : String) : McpResponse :=
  McpResponse.failure id code message

/-- The `initialize` result value built inline in `handle_mcp`. -/
def initialize_result (serverName serverVersion : String) : Json :=
  Json.obj
    [("protocolVersion", Json.str "2025-03-26"),
     ("serverInfo",
       Json.obj [("name", Json.str serverName), ("version", Json.str serverVersion)]),
     ("capabilities", Json.obj [("tools", Json.obj [])])]

/-- The method-dispatch tail of `handle_mcp` (the `match method` block), for
a non-notification request.  `callTool` stands for the awaited
`call_tool(params, state.thumbnail_cache…)` collaborator; `tools` for the
static `tool_list()` catalog. -/
def dispatch_method (serverName serverVersion : String) (tools : Json)
    (callTool : Json → Except String Json) (id : Json) (method : String)
    (params : Option Json) : McpResponse :=
  match method with
  | "initialize" => json_ok id (initialize_result serverName serverVersion)
  | "tools/list" => json_ok id (Json.obj [("tools", tools)])
  | "tools/call" =>
      let params := params.getD (Json.obj [])
      match callTool params with
      | Except.ok result => json_ok id result
      | Except.error message => json_error id (-32602) message
  | _ => json_error id (-32601) ("Method '" ++ method ++ "' not found")

/-- The tail of `handle_mcp` after the version check: missing `method` is a
`-32600` error; then a null id short-circuits to the empty response and any
other id is dispatched by method. -/
def handle_after_version (serverName serverVersion : String) (tools : Json)
    (callTool : Json → Except String Json) (id : Json) (request : RpcRequest) :
    McpResponse :=
  match request.method with
  | none => json_error id (-32600) "Invalid Request: missing 'method'"
  | some method =>
      if id.isNull then McpResponse.empty
      else dispatch_method serverName serverVersion tools callTool id method request.params

/-- `handle_mcp` from `src/mcp.rs`.  The HTTP body is presented
post-deserialization: `none` models a byte payload that is not valid JSON
(`serde_json::from_slice` failed), `some value` a payload that parsed as
`value`. -/
def handle_mcp (serverName serverVersion : String) (tools : Json)
    (callTool : Json → Except String Json) (body : Option Json) : McpResponse :=
  match body with
  | none => json_error Json.null (-32700) "Parse error: invalid JSON"
  | some value =>
    match parse_rpc_request value with
    | Except.error message => json_error Json.null (-32600) message
    | Except.ok request =>
      let id := request.id.getD Json.null
      match request.jsonrpc with
      | some version =>
          if version = "2.0" then
            handle_after_version serverName serverVersion tools callTool id request
          else
            json_error id (-32600) ("Invalid jsonrpc version '" ++ version ++ "'")
      | none => handle_after_version serverName serverVersion tools callTool id request

/-! ## `src/pcli.rs` — tool dispatcher, argument mapping, validation -/

/-- `MAX_PCLI2_OUTPUT_BYTES` from `src/pcli.rs` (200 MiB). -/
def MAX_PCLI2_OUTPUT_BYTES : Nat := 200 * 1024 * 1024

/-- Model of Rust's `Display` formatting (`format!("{}", v)`) for an `f64`,
over the rational number model: an integral value prints with no decimal
point, exactly as `f64::Display` prints it.  (For non-integral values the
model falls back to the rational's own rendering; every concrete value the
theorems below are instantiated at is integral.) -/
def formatF64 (q : ℚ) : String :=
  if q.den = 1 then toString q.num else toString q

/-- `validate_range_f64` from `src/pcli.rs`: if the key is present and
numeric, its value must lie in `[min, max]`. -/
def validate_range_f64 (args : Json) (key : String) (lo hi : ℚ) :
    Except String Unit :=
  match (args.getKey key).bind Json.asF64 with
  | some value =>
      if value < lo ∨ value > hi then
        Except.error ("Invalid argument '" ++ key ++ "': value " ++ formatF64 value ++
          " must be between " ++ formatF64 lo ++ " and " ++ formatF64 hi)
      else Except.ok ()
  | none => Except.ok ()

/-- `validate_range_u64` from `src/pcli.rs`. -/
def validate_range_u64 (args : Json) (key : String) (lo hi : Nat) :
    Except String Unit :=
  match (args.getKey key).bind Json.asU64 with
  | some value =>
      if value < lo ∨ value > hi then
        Except.error ("Invalid argument '" ++ key ++ "': value " ++ toString value ++
          " must be between " ++ toString lo ++ " and " ++ toString hi)
      else Except.ok ()
  | none => Except.ok ()

/-- `require_uuid_or_path` from `src/pcli.rs`: at least one of `uuid`/`path`
must be supplied as a string. -/
def require_uuid_or_path (args : Json) :
    Except String (Option String × Option String) :=
  let uuid := (args.getKey "uuid").bind Json.asStr
  let path := (args.getKey "path").bind Json.asStr
  if uuid.isNone && path.isNone then
    Except.error "Missing required argument: provide either 'uuid' or 'path'"
  else Except.ok (uuid, path)

/-- `require_folder_uuid_or_path` from `src/pcli.rs`. -/
def require_folder_uuid_or_path (args : Json) :
    Except String (Option String × Option String) :=
  let uuid := (args.getKey "folder_uuid").bind Json.asStr
  let path := (args.getKey "folder_path").bind Json.asStr
  if uuid.isNone && path.isNone then
    Except.error "Missing required argument: provide either 'folder_uuid' or 'folder_path'"
  else Except.ok (uuid, path)

/-- `parse_string_list` from `src/pcli.rs`. -/
def parse_string_list (args : Json) (key : String) : List String :=
  match args.getKey key with
  | some (Json.arr values) => values.filterMap Json.asStr
  | some (Json.str value) => [value]
  | _ => []

/-- The `if let Some(tenant) = args.get("tenant")… { push "-t"; push tenant }`
pattern shared by the `run_pcli2_*` functions. -/
def push_tenant (cmd_args : List String) (args : Json) : List String :=
  match (args.getKey "tenant").bind Json.asStr with
  | some tenant => cmd_args ++ ["-t", tenant]
  | none => cmd_args

/-- `push_flag_if` from `src/pcli.rs`. -/
def push_flag_if (cmd_args : List String) (args : Json) (key flag : String) :
    List String :=
  if ((args.getKey key).bind Json.asBool).getD false then cmd_args ++ [flag]
  else cmd_args

/-- `push_opt_string` from `src/pcli.rs`. -/
def push_opt_string (cmd_args : List String) (flag : String)
    (value : Option String) : List String :=
  match value with
  | some value => cmd_args ++ [flag, value]
  | none => cmd_args

/-- `push_opt_f64` from `src/pcli.rs`. -/
def push_opt_f64 (cmd_args : List String) (args : Json) (key flag : String) :
    List String :=
  match (args.getKey key).bind Json.asF64 with
  | some value => cmd_args ++ [flag, formatF64 value]
  | none => cmd_args

/-- `push_opt_u64` from `src/pcli.rs`. -/
def push_opt_u64 (cmd_args : List String) (args : Json) (key flag : String) :
    List String :=
  match (args.getKey key).bind Json.asU64 with
  | some value => cmd_args ++ [flag, toString value]
  | none => cmd_args

/-- The subprocess collaborator: `run_pcli2_command(cmd_args, label)`
abstracted as a function from argv and label to the captured result.  The
`run_pcli2_*` argument mappers are parameterized over it, so a theorem
that holds for every `RunCmd` holds whatever the external `pcli2` binary
does — in particular when the validation layer errors out before the
subprocess is ever spawned. -/
def RunCmd : Type := List String → String → Except String String

/-- The shared `content: [{type: "text", text: output}]` success payload. -/
def textContent (output : String) : Json :=
  Json.obj
    [("content",
      Json.arr [Json.obj [("type", Json.str "text"), ("text", Json.str output)]])]

/-- `run_simple_tool` from `src/pcli.rs`: wrap success as a text content
value, prefix failure with the tool label. -/
def run_simple_tool (label : String) (result : Except String String) :
    Except String Json :=
  match result with
  | Except.ok output => Except.ok (textContent output)
  | Except.error message => Except.error (label ++ " failed: " ++ message)

/-- `run_pcli2_list` from `src/pcli.rs`. -/
def run_pcli2_list (runCmd : RunCmd) (args : Json) : Except String String :=
  let resource := ((args.getKey "resource").bind Json.asStr).getD "folder"
  let cmd_args : List String := [resource, "list"]
  let cmd_args := push_tenant cmd_args args
  let cmd_args := push_flag_if cmd_args args "metadata" "--metadata"
  let cmd_args := push_flag_if cmd_args args "headers" "--headers"
  let cmd_args := push_flag_if cmd_args args "pretty" "--pretty"
  let cmd_args := push_opt_string cmd_args "-f" ((args.getKey "format").bind Json.asStr)
  let cmd_args :=
    push_opt_string cmd_args "--folder-uuid" ((args.getKey "folder_uuid").bind Json.asStr)
  let cmd_args :=
    push_opt_string cmd_args "--folder-path" ((args.getKey "folder_path").bind Json.asStr)
  let cmd_args := push_flag_if cmd_args args "reload" "--reload"
  runCmd cmd_args ("pcli2 " ++ resource ++ " list")

/-- `run_pcli2_tenant_list` from `src/pcli.rs`. -/
def run_pcli2_tenant_list (runCmd : RunCmd) (args : Json) : Except String String :=
  let cmd_args : List String := ["tenant", "list"]
  let cmd_args := push_flag_if cmd_args args "headers" "--headers"
  let cmd_args := push_flag_if cmd_args args "pretty" "--pretty"
  let cmd_args := push_opt_string cmd_args "-f" ((args.getKey "format").bind Json.asStr)
  runCmd cmd_args "pcli2 tenant list"

/-- `run_pcli2_version` from `src/pcli.rs`. -/
def run_pcli2_version (runCmd : RunCmd) : Except String String :=
  runCmd ["--version"] "pcli2 --version"

/-- `run_pcli2_config_get` from `src/pcli.rs`. -/
def run_pcli2_config_get (runCmd : RunCmd) (args : Json) : Except String String :=
  let cmd_args : List String := ["config", "get"]
  let cmd_args := push_flag_if cmd_args args "headers" "--headers"
  let cmd_args := push_flag_if cmd_args args "pretty" "--pretty"
  let cmd_args := push_opt_string cmd_args "-f" ((args.getKey "format").bind Json.asStr)
  runCmd cmd_args "pcli2 config get"

/-- `run_pcli2_config_get_path` from `src/pcli.rs`. -/
def run_pcli2_config_get_path (runCmd : RunCmd) (args : Json) : Except String String :=
  let cmd_args : List String := ["config", "get", "path"]
  let cmd_args := push_opt_string cmd_args "-f" ((args.getKey "format").bind Json.asStr)
  runCmd cmd_args "pcli2 config get path"

/-- `run_pcli2_config_environment_list` from `src/pcli.rs`. -/
def run_pcli2_config_environment_list (runCmd : RunCmd) (args : Json) :
    Except String String :=
  let cmd_args : List String := ["config", "environment", "list"]
  let cmd_args := push_flag_if cmd_args args "headers" "--headers"
  let cmd_args := push_flag_if cmd_args args "pretty" "--pretty"
  let cmd_args := push_opt_string cmd_args "-f" ((args.getKey "format").bind Json.asStr)
  runCmd cmd_args "pcli2 config environment list"

/-- `run_pcli2_config_environment_get` from `src/pcli.rs`. -/
def run_pcli2_config_environment_get (runCmd : RunCmd) (args : Json) :
    Except String String :=
  let cmd_args : List String := ["config", "environment", "get"]
  let cmd_args := push_opt_string cmd_args "-n" ((args.getKey "name").bind Json.asStr)
  let cmd_args := push_flag_if cmd_args args "headers" "--headers"
  let cmd_args := push_flag_if cmd_args args "pretty" "--pretty"
  let cmd_args := push_opt_string cmd_args "-f" ((args.getKey "format").bind Json.asStr)
  runCmd cmd_args "pcli2 config environment get"

/-- `run_pcli2_tenant_get` from `src/pcli.rs`. -/
def run_pcli2_tenant_get (runCmd : RunCmd) (args : Json) : Except String String :=
  let cmd_args : List String := ["tenant", "get"]
  let cmd_args := push_flag_if cmd_args args "headers" "--headers"
  let cmd_args := push_flag_if cmd_args args "pretty" "--pretty"
  let cmd_args := push_opt_string cmd_args "-f" ((args.getKey "format").bind Json.asStr)
  runCmd cmd_args "pcli2 tenant get"

/-- `run_pcli2_tenant_state` from `src/pcli.rs`. -/
def run_pcli2_tenant_state (runCmd : RunCmd) (args : Json) : Except String String :=
  let cmd_args : List String := ["tenant", "state"]
  let cmd_args := push_tenant cmd_args args
  let cmd_args := push_opt_string cmd_args "--type" ((args.getKey "type").bind Json.asStr)
  let cmd_args := push_flag_if cmd_args args "headers" "--headers"
  let cmd_args := push_flag_if cmd_args args "pretty" "--pretty"
  let cmd_args := push_opt_string cmd_args "-f" ((args.getKey "format").bind Json.asStr)
  runCmd cmd_args "pcli2 tenant state"

/-- `run_pcli2_tenant_use` from `src/pcli.rs`. -/
def run_pcli2_tenant_use (runCmd : RunCmd) (args : Json) : Except String String :=
  match ((args.getKey "tenant_name").bind Json.asStr).orElse
      (fun _ => (args.getKey "name").bind Json.asStr) with
  | none => Except.error "Missing required argument: provide 'tenant_name' or 'name'"
  | some name =>
    let cmd_args : List String := ["tenant", "use", "--name", name]
    let cmd_args := push_flag_if cmd_args args "refresh" "--refresh"
    let cmd_args := push_flag_if cmd_args args "headers" "--headers"
    let cmd_args := push_flag_if cmd_args args "pretty" "--pretty"
    let cmd_args := push_opt_string cmd_args "-f" ((args.getKey "format").bind Json.asStr)
    runCmd cmd_args "pcli2 tenant use"

/-- `run_pcli2_folder_get` from `src/pcli.rs`. -/
def run_pcli2_folder_get (runCmd : RunCmd) (args : Json) : Except String String :=
  let cmd_args : List String := ["folder", "get"]
  let cmd_args := push_tenant cmd_args args
  match require_folder_uuid_or_path args with
  | Except.error e => Except.error e
  | Except.ok (folder_uuid, folder_path) =>
    let cmd_args := push_opt_string cmd_args "--folder-uuid" folder_uuid
    let cmd_args := push_opt_string cmd_args "--folder-path" folder_path
    let cmd_args := push_flag_if cmd_args args "metadata" "--metadata"
    let cmd_args := push_flag_if cmd_args args "headers" "--headers"
    let cmd_args := push_flag_if cmd_args args "pretty" "--pretty"
    let cmd_args := push_opt_string cmd_args "-f" ((args.getKey "format").bind Json.asStr)
    runCmd cmd_args "pcli2 folder get"

/-- `run_pcli2_folder_resolve` from `src/pcli.rs`. -/
def run_pcli2_folder_resolve (runCmd : RunCmd) (args : Json) : Except String String :=
  let cmd_args : List String := ["folder", "resolve"]
  let cmd_args := push_tenant cmd_args args
  match (args.getKey "folder_path").bind Json.asStr with
  | none => Except.error "Missing required argument: 'folder_path'"
  | some folder_path =>
    runCmd (cmd_args ++ ["--folder-path", folder_path]) "pcli2 folder resolve"

/-- `run_pcli2_folder_dependencies` from `src/pcli.rs`. -/
def run_pcli2_folder_dependencies (runCmd : RunCmd) (args : Json) :
    Except String String :=
  let cmd_args : List String := ["folder", "dependencies"]
  let cmd_args := push_tenant cmd_args args
  let folder_paths := parse_string_list args "folder_path"
  if folder_paths.isEmpty then
    Except.error "Missing required argument: 'folder_path'"
  else
    let cmd_args := cmd_args ++ folder_paths.flatMap (fun path => ["--folder-path", path])
    let cmd_args := push_flag_if cmd_args args "headers" "--headers"
    let cmd_args := push_flag_if cmd_args args "metadata" "--metadata"
    let cmd_args := push_flag_if cmd_args args "pretty" "--pretty"
    let cmd_args := push_opt_string cmd_args "-f" ((args.getKey "format").bind Json.asStr)
    let cmd_args := push_flag_if cmd_args args "progress" "--progress"
    runCmd cmd_args "pcli2 folder dependencies"

/-- `run_pcli2_folder_geometric_match` from `src/pcli.rs`: validates
`threshold ∈ [0,100]` and `concurrent ∈ [1,10]` before anything else. -/
def run_pcli2_folder_geometric_match (runCmd : RunCmd) (args : Json) :
    Except String String :=
  match validate_range_f64 args "threshold" 0 100 with
  | Except.error e => Except.error e
  | Except.ok _ =>
  match validate_range_u64 args "concurrent" 1 10 with
  | Except.error e => Except.error e
  | Except.ok _ =>
  let cmd_args : List String := ["folder", "geometric-match"]
  let cmd_args := push_tenant cmd_args args
  let folder_paths := parse_string_list args "folder_path"
  if folder_paths.isEmpty then
    Except.error "Missing required argument: 'folder_path'"
  else
    let cmd_args := cmd_args ++ folder_paths.flatMap (fun path => ["--folder-path", path])
    let cmd_args := push_opt_f64 cmd_args args "threshold" "--threshold"
    let cmd_args := push_flag_if cmd_args args "exclusive" "--exclusive"
    let cmd_args := push_flag_if cmd_args args "headers" "--headers"
    let cmd_args := push_flag_if cmd_args args "metadata" "--metadata"
    let cmd_args := push_flag_if cmd_args args "pretty" "--pretty"
    let cmd_args := push_opt_string cmd_args "-f" ((args.getKey "format").bind Json.asStr)
    let cmd_args := push_opt_u64 cmd_args args "concurrent" "--concurrent"
    let cmd_args := push_flag_if cmd_args args "progress" "--progress"
    runCmd cmd_args "pcli2 folder geometric-match"

/-- `run_pcli2_folder_part_match` from `src/pcli.rs`. -/
def run_pcli2_folder_part_match (runCmd : RunCmd) (args : Json) :
    Except String String :=
  match validate_range_f64 args "threshold" 0 100 with
  | Except.error e => Except.error e
  | Except.ok _ =>
  match validate_range_u64 args "concurrent" 1 10 with
  | Except.error e => Except.error e
  | Except.ok _ =>
  let cmd_args : List String := ["folder", "part-match"]
  let cmd_args := push_tenant cmd_args args
  let folder_paths := parse_string_list args "folder_path"
  if folder_paths.isEmpty then
    Except.error "Missing required argument: 'folder_path'"
  else
    let cmd_args := cmd_args ++ folder_paths.flatMap (fun path => ["--folder-path", path])
    let cmd_args := push_opt_f64 cmd_args args "threshold" "--threshold"
    let cmd_args := push_flag_if cmd_args args "exclusive" "--exclusive"
    let cmd_args := push_flag_if cmd_args args "headers" "--headers"
    let cmd_args := push_flag_if cmd_args args "metadata" "--metadata"
    let cmd_args := push_flag_if cmd_args args "pretty" "--pretty"
    let cmd_args := push_opt_string cmd_args "-f" ((args.getKey "format").bind Json.asStr)
    let cmd_args := push_opt_u64 cmd_args args "concurrent" "--concurrent"
    let cmd_args := push_flag_if cmd_args args "progress" "--progress"
    runCmd cmd_args "pcli2 folder part-match"

/-- `run_pcli2_folder_visual_match` from `src/pcli.rs` (validates only
`concurrent`; there is no `threshold` argument for visual match). -/
def run_pcli2_folder_visual_match (runCmd : RunCmd) (args : Json) :
    Except String String :=
  match validate_range_u64 args "concurrent" 1 10 with
  | Except.error e => Except.error e
  | Except.ok _ =>
  let cmd_args : List String := ["folder", "visual-match"]
  let cmd_args := push_tenant cmd_args args
  let folder_paths := parse_string_list args "folder_path"
  if folder_paths.isEmpty then
    Except.error "Missing required argument: 'folder_path'"
  else
    let cmd_args := cmd_args ++ folder_paths.flatMap (fun path => ["--folder-path", path])
    let cmd_args := push_flag_if cmd_args args "exclusive" "--exclusive"
    let cmd_args := push_flag_if cmd_args args "headers" "--headers"
    let cmd_args := push_flag_if cmd_args args "metadata" "--metadata"
    let cmd_args := push_flag_if cmd_args args "pretty" "--pretty"
    let cmd_args := push_opt_string cmd_args "-f" ((args.getKey "format").bind Json.asStr)
    let cmd_args := push_opt_u64 cmd_args args "concurrent" "--concurrent"
    let cmd_args := push_flag_if cmd_args args "progress" "--progress"
    runCmd cmd_args "pcli2 folder visual-match"

/-- `run_pcli2_asset_get` from `src/pcli.rs`. -/
def run_pcli2_asset_get (runCmd : RunCmd) (args : Json) : Except String String :=
  let cmd_args : List String := ["asset", "get"]
  let cmd_args := push_tenant cmd_args args
  match require_uuid_or_path args with
  | Except.error e => Except.error e
  | Except.ok (uuid, path) =>
    let cmd_args := push_opt_string cmd_args "--uuid" uuid
    let cmd_args := push_opt_string cmd_args "--path" path
    let cmd_args := push_flag_if cmd_args args "headers" "--headers"
    let cmd_args := push_flag_if cmd_args args "metadata" "--metadata"
    let cmd_args := push_flag_if cmd_args args "pretty" "--pretty"
    let cmd_args := push_opt_string cmd_args "-f" ((args.getKey "format").bind Json.asStr)
    runCmd cmd_args "pcli2 asset get"

/-- `run_pcli2_asset_dependencies` from `src/pcli.rs`. -/
def run_pcli2_asset_dependencies (runCmd : RunCmd) (args : Json) :
    Except String String :=
  let cmd_args : List String := ["asset", "dependencies"]
  let cmd_args := push_tenant cmd_args args
  match require_uuid_or_path args with
  | Except.error e => Except.error e
  | Except.ok (uuid, path) =>
    let cmd_args := push_opt_string cmd_args "--uuid" uuid
    let cmd_args := push_opt_string cmd_args "--path" path
    let cmd_args := push_flag_if cmd_args args "metadata" "--metadata"
    let cmd_args := push_flag_if cmd_args args "headers" "--headers"
    let cmd_args := push_flag_if cmd_args args "pretty" "--pretty"
    let cmd_args := push_opt_string cmd_args "-f" ((args.getKey "format").bind Json.asStr)
    runCmd cmd_args "pcli2 asset dependencies"

/-- `run_pcli2_asset_reprocess` from `src/pcli.rs`. -/
def run_pcli2_asset_reprocess (runCmd : RunCmd) (args : Json) :
    Except String String :=
  let cmd_args : List String := ["asset", "reprocess"]
  let cmd_args := push_tenant cmd_args args
  match require_uuid_or_path args with
  | Except.error e => Except.error e
  | Except.ok (uuid, path) =>
    let cmd_args := push_opt_string cmd_args "--uuid" uuid
    let cmd_args := push_opt_string cmd_args "--path" path
    runCmd cmd_args "pcli2 asset reprocess"

/-- `run_pcli2_asset_geometric_match` from `src/pcli.rs`: validates
`threshold ∈ [0,100]` before resolving the uuid/path identifier or building
the command line. -/
def run_pcli2_asset_geometric_match (runCmd : RunCmd) (args : Json) :
    Except String String :=
  match validate_range_f64 args "threshold" 0 100 with
  | Except.error e => Except.error e
  | Except.ok _ =>
  let cmd_args : List String := ["asset", "geometric-match"]
  let cmd_args := push_tenant cmd_args args
  match require_uuid_or_path args with
  | Except.error e => Except.error e
  | Except.ok (uuid, path) =>
    let cmd_args := push_opt_string cmd_args "--uuid" uuid
    let cmd_args := push_opt_string cmd_args "--path" path
    let cmd_args := push_opt_f64 cmd_args args "threshold" "--threshold"
    let cmd_args := push_flag_if cmd_args args "headers" "--headers"
    let cmd_args := push_flag_if cmd_args args "metadata" "--metadata"
    let cmd_args := push_flag_if cmd_args args "pretty" "--pretty"
    let cmd_args := push_opt_string cmd_args "-f" ((args.getKey "format").bind Json.asStr)
    runCmd cmd_args "pcli2 asset geometric-match"

/-- `run_pcli2_asset_part_match` from `src/pcli.rs`. -/
def run_pcli2_asset_part_match (runCmd : RunCmd) (args : Json) :
    Except String String :=
  match validate_range_f64 args "threshold" 0 100 with
  | Except.error e => Except.error e
  | Except.ok _ =>
  let cmd_args : List String := ["asset", "part-match"]
  let cmd_args := push_tenant cmd_args args
  match require_uuid_or_path args with
  | Except.error e => Except.error e
  | Except.ok (uuid, path) =>
    let cmd_args := push_opt_string cmd_args "--uuid" uuid
    let cmd_args := push_opt_string cmd_args "--path" path
    let cmd_args := push_opt_f64 cmd_args args "threshold" "--threshold"
    let cmd_args := push_flag_if cmd_args args "headers" "--headers"
    let cmd_args := push_flag_if cmd_args args "metadata" "--metadata"
    let cmd_args := push_flag_if cmd_args args "pretty" "--pretty"
    let cmd_args := push_opt_string cmd_args "-f" ((args.getKey "format").bind Json.asStr)
    runCmd cmd_args "pcli2 asset part-match"

/-- `run_pcli2_asset_visual_match` from `src/pcli.rs`. -/
def run_pcli2_asset_visual_match (runCmd : RunCmd) (args : Json) :
    Except String String :=
  let cmd_args : List String := ["asset", "visual-match"]
  let cmd_args := push_tenant cmd_args args
  match require_uuid_or_path args with
  | Except.error e => Except.error e
  | Except.ok (uuid, path) =>
    let cmd_args := push_opt_string cmd_args "--uuid" uuid
    let cmd_args := push_opt_string cmd_args "--path" path
    let cmd_args := push_flag_if cmd_args args "headers" "--headers"
    let cmd_args := push_flag_if cmd_args args "metadata" "--metadata"
    let cmd_args := push_flag_if cmd_args args "pretty" "--pretty"
    let cmd_args := push_opt_string cmd_args "-f" ((args.getKey "format").bind Json.asStr)
    runCmd cmd_args "pcli2 asset visual-match"

/-- `run_pcli2_asset_text_match` from `src/pcli.rs`. -/
def run_pcli2_asset_text_match (runCmd : RunCmd) (args : Json) :
    Except String String :=
  let cmd_args : List String := ["asset", "text-match"]
  let cmd_args := push_tenant cmd_args args
  match (args.getKey "text").bind Json.asStr with
  | none => Except.error "Missing required argument: 'text'"
  | some text =>
    let cmd_args := cmd_args ++ ["--text", text]
    let cmd_args := push_flag_if cmd_args args "fuzzy" "--fuzzy"
    let cmd_args := push_flag_if cmd_args args "headers" "--headers"
    let cmd_args := push_flag_if cmd_args args "metadata" "--metadata"
    let cmd_args := push_flag_if cmd_args args "pretty" "--pretty"
    let cmd_args := push_opt_string cmd_args "-f" ((args.getKey "format").bind Json.asStr)
    runCmd cmd_args "pcli2 asset text-match"

/-- `run_pcli2_asset_metadata_create` from `src/pcli.rs`. -/
def run_pcli2_asset_metadata_create (runCmd : RunCmd) (args : Json) :
    Except String String :=
  let cmd_args : List String := ["asset", "metadata", "create"]
  let cmd_args := push_tenant cmd_args args
  match require_uuid_or_path args with
  | Except.error e => Except.error e
  | Except.ok (uuid, path) =>
    let cmd_args := push_opt_string cmd_args "--uuid" uuid
    let cmd_args := push_opt_string cmd_args "--path" path
    match (args.getKey "name").bind Json.asStr with
    | none => Except.error "Missing required argument: 'name'"
    | some name =>
      match (args.getKey "value").bind Json.asStr with
      | none => Except.error "Missing required argument: 'value'"
      | some value =>
        let cmd_args := cmd_args ++ ["--name", name, "--value", value]
        let cmd_args := push_opt_string cmd_args "--type" ((args.getKey "type").bind Json.asStr)
        runCmd cmd_args "pcli2 asset metadata create"

/-- The `name` extraction in `run_pcli2_asset_metadata_delete`: an array of
strings or a single string, each split on commas, trimmed, empties
dropped. -/
def metadata_delete_names (args : Json) : List String :=
  match args.getKey "name" with
  | some (Json.arr values) =>
      ((values.filterMap Json.asStr).flatMap (fun value => value.splitOn ",")
        |>.map String.trim).filter (fun value => value ≠ "")
  | some (Json.str value) =>
      (((value.splitOn ",").map String.trim)).filter (fun value => value ≠ "")
  | _ => []

/-- `run_pcli2_asset_metadata_delete` from `src/pcli.rs`. -/
def run_pcli2_asset_metadata_delete (runCmd : RunCmd) (args : Json) :
    Except String String :=
  let cmd_args : List String := ["asset", "metadata", "delete"]
  let cmd_args := push_tenant cmd_args args
  match require_uuid_or_path args with
  | Except.error e => Except.error e
  | Except.ok (uuid, path) =>
    let cmd_args := push_opt_string cmd_args "--uuid" uuid
    let cmd_args := push_opt_string cmd_args "--path" path
    let names := metadata_delete_names args
    if names.isEmpty then
      Except.error "Missing required argument: 'name'"
    else
      let cmd_args := cmd_args ++ names.flatMap (fun name => ["--name", name])
      let cmd_args := push_opt_string cmd_args "-f" ((args.getKey "format").bind Json.asStr)
      runCmd cmd_args "pcli2 asset metadata delete"

/-- `call_tool` from `src/pcli.rs`: dispatch a `tools/call` request to the
matching argument mapper.  `runCmd` is the subprocess collaborator;
`runThumb` stands for `run_pcli2_asset_thumbnail(args, cache)`, whose body
mixes subprocess, temp-file and cache I/O (out of scope for every claim);
`cache` models `thumbnail_cache: Option<&ThumbnailCache>` together with the
result its `cleanup_expired()` would produce (`none` = cache unavailable). -/
def call_tool (runCmd : RunCmd) (runThumb : Json → Except String String)
    (cache : Option (Except String Nat)) (params : Json) : Except String Json :=
  match (params.getKey "name").bind Json.asStr with
  | none => Except.error "Missing tool name"
  | some name =>
    let args := (params.getKey "arguments").getD (Json.obj [])
    match name with
    | "pcli2" =>
        match run_pcli2_list runCmd args with
        | Except.ok output => Except.ok (textContent output)
        | Except.error e => Except.error e
    | "pcli2_tenant_list" => run_simple_tool "pcli2 tenant list" (run_pcli2_tenant_list runCmd args)
    | "pcli2_version" => run_simple_tool "pcli2 --version" (run_pcli2_version runCmd)
    | "pcli2_config_get" => run_simple_tool "pcli2 config get" (run_pcli2_config_get runCmd args)
    | "pcli2_config_get_path" =>
        run_simple_tool "pcli2 config get path" (run_pcli2_config_get_path runCmd args)
    | "pcli2_config_environment_list" =>
        run_simple_tool "pcli2 config environment list" (run_pcli2_config_environment_list runCmd args)
    | "pcli2_config_environment_get" =>
        run_simple_tool "pcli2 config environment get" (run_pcli2_config_environment_get runCmd args)
    | "pcli2_tenant_get" => run_simple_tool "pcli2 tenant get" (run_pcli2_tenant_get runCmd args)
    | "pcli2_tenant_state" => run_simple_tool "pcli2 tenant state" (run_pcli2_tenant_state runCmd args)
    | "pcli2_tenant_use" => run_simple_tool "pcli2 tenant use" (run_pcli2_tenant_use runCmd args)
    | "pcli2_folder_get" => run_simple_tool "pcli2 folder get" (run_pcli2_folder_get runCmd args)
    | "pcli2_folder_resolve" =>
        run_simple_tool "pcli2 folder resolve" (run_pcli2_folder_resolve runCmd args)
    | "pcli2_folder_dependencies" =>
        run_simple_tool "pcli2 folder dependencies" (run_pcli2_folder_dependencies runCmd args)
    | "pcli2_folder_geometric_match" =>
        run_simple_tool "pcli2 folder geometric-match" (run_pcli2_folder_geometric_match runCmd args)
    | "pcli2_folder_part_match" =>
        run_simple_tool "pcli2 folder part-match" (run_pcli2_folder_part_match runCmd args)
    | "pcli2_folder_visual_match" =>
        run_simple_tool "pcli2 folder visual-match" (run_pcli2_folder_visual_match runCmd args)
    | "pcli2_asset_get" => run_simple_tool "pcli2 asset get" (run_pcli2_asset_get runCmd args)
    | "pcli2_asset_dependencies" =>
        run_simple_tool "pcli2 asset dependencies" (run_pcli2_asset_dependencies runCmd args)
    | "pcli2_asset_thumbnail" =>
        match runThumb args with
        | Except.ok src => Except.ok (textContent (thumbnailHtml src))
        | Except.error e => Except.error e
    | "pcli2_asset_reprocess" =>
        run_simple_tool "pcli2 asset reprocess" (run_pcli2_asset_reprocess runCmd args)
    | "pcli2_geometric_match" =>
        match run_pcli2_asset_geometric_match runCmd args with
        | Except.ok output => Except.ok (textContent output)
        | Except.error e => Except.error e
    | "pcli2_asset_part_match" =>
        run_simple_tool "pcli2 asset part-match" (run_pcli2_asset_part_match runCmd args)
    | "pcli2_asset_visual_match" =>
        run_simple_tool "pcli2 asset visual-match" (run_pcli2_asset_visual_match runCmd args)
    | "pcli2_asset_text_match" =>
        run_simple_tool "pcli2 asset text-match" (run_pcli2_asset_text_match runCmd args)
    | "pcli2_asset_metadata_create" =>
        run_simple_tool "pcli2 asset metadata create" (run_pcli2_asset_metadata_create runCmd args)
    | "pcli2_asset_metadata_delete" =>
        run_simple_tool "pcli2 asset metadata delete" (run_pcli2_asset_metadata_delete runCmd args)
    | "pcli2_thumbnail_cache_cleanup" =>
        match cache with
        | none => Except.ok (textContent "Thumbnail cache is not available")
        | some (Except.ok count) =>
            Except.ok (textContent ("Cleaned up " ++ toString count ++ " expired thumbnail(s)"))
        | some (Except.error err) =>
            Except.error ("Thumbnail cache cleanup failed: " ++ err)
    | _ => Except.error ("Unknown tool '" ++ name ++ "'")
where
  /-- The HTML page built inline in the `pcli2_asset_thumbnail` branch. -/
  thumbnailHtml (src : String) : String :=
    "<!DOCTYPE html>\n<html>\n<head><title>Asset Thumbnail</title></head>\n<body>\n<img src=\"" ++
      src ++ "\" alt=\"Asset Thumbnail\" style=\"max-width: 100%; height: auto;\">\n</body>\n</html>"

/-! ## `read_limited` — bounded concurrent stream capture -/

/-- The loop of `read_limited` from `src/pcli.rs`, one step per successful
`reader.read(&mut chunk)` call.  The stream is modelled as the list of
chunks the reads return, in order; a read returning `0` bytes (end of
stream) is the end of the list, so every modelled chunk is nonempty in any
faithful stream (`[] ≠ c`).  `buf` is the accumulator.  I/O read errors are
not modelled (they surface as a different error string). -/
def read_limited_loop (limit : Nat) (label : String) :
    List (List Nat) → List Nat → Except String (List Nat)
  | [], buf => Except.ok buf
  | chunk :: rest, buf =>
      if chunk.length = 0 then Except.ok buf
      else if buf.length + chunk.length > limit then
        Except.error ("pcli2 " ++ label ++ " exceeded maximum output size of " ++
          toString limit ++ " bytes")
      else read_limited_loop limit label rest (buf ++ chunk)

/-- `read_limited` from `src/pcli.rs`: drain a stream into a buffer,
aborting once the accumulated bytes would exceed `limit`. -/
def read_limited (limit : Nat) (label : String) (chunks : List (List Nat)) :
    Except String (List Nat) :=
  read_limited_loop limit label chunks []

/-- The overflow message `read_limited` produces, naming the stream label. -/
def overflow_message (limit : Nat) (label : String) : String :=
  "pcli2 " ++ label ++ " exceeded maximum output size of " ++ toString limit ++ " bytes"

/-! ## `src/thumbnail.rs` — the thumbnail cache

The cache directory is modelled as two association lists with unique keys:
the `<key>.png` payload files (raw bytes) and the `<key>.meta` sidecar
files.  A sidecar value of `none` models a file whose contents do not
deserialize as `ThumbnailMetadata` (corrupt); an absent list entry models
an absent file.  Filesystem writes/deletes are modelled as succeeding.
Clock reads (`SystemTime::now`, `Utc::now`) are explicit arguments, and
`std::hash::DefaultHasher` is an explicit `hash` function argument whose
result is truncated to 64 bits exactly as `Hasher::finish() -> u64` is. -/

/-- `ThumbnailMetadata` from `src/thumbnail.rs`. -/
structure ThumbnailMetadata where
  cached_at : Int
  source : String
  content_hash : Option String
  deriving DecidableEq

/-- The cache directory: payload files and sidecar files, keyed by cache
key. -/
structure CacheDir where
  payloads : List (String × List Nat)
  sidecars : List (String × Option ThumbnailMetadata)
  deriving DecidableEq

/-- Remove every entry with the given key (model of deleting the file). -/
def eraseKey {α : Type} (k : String) : List (String × α) → List (String × α)
  | [] => []
  | (k', v) :: rest => if k' = k then eraseKey k rest else (k', v) :: eraseKey k rest

/-- Write a file: replace any entry with the given key. -/
def setEntry {α : Type} (k : String) (v : α) (l : List (String × α)) :
    List (String × α) :=
  (k, v) :: eraseKey k l

/-- The lowercase hex character of one digit value (`0`–`9` then `a`–`f`),
as the formatter derives it from the digit's value. -/
def hexChar (d : Nat) : Char :=
  if d < 10 then Char.ofNat (48 + d) else Char.ofNat (87 + d)

/-- The `k` low-order base-16 digits of `n`, least significant first. -/
def padDigits : Nat → Nat → List Nat
  | 0, _ => []
  | k + 1, n => n % 16 :: padDigits k (n / 16)

/-- Model of `format!("{:016x}", n)` for `n : u64`: sixteen zero-padded
lowercase hex digits, most significant first. -/
def toHex16 (n : Nat) : String :=
  String.mk ((padDigits 16 n).reverse.map hexChar)

/-- `generate_cache_key` from `src/thumbnail.rs`: hash the source label and
the current Unix timestamp in milliseconds, render the 64-bit hash value
(`Hasher::finish`) as 16 hex digits.  `hash` models the
`DefaultHasher` fed `source` then `timestamp`; the `% 2 ^ 64` records that
`finish()` returns a `u64`. -/
def generate_cache_key (hash : String → Nat → Nat) (source : String)
    (timestampMillis : Nat) : String :=
  toHex16 (hash source timestampMillis % 2 ^ 64)

/-- One invocation of `generate_cache_key`: the `seq` number distinguishes
distinct call events; `timestampMillis` is what `SystemTime::now()` read as
milliseconds since the epoch at that event.  Two distinct calls can observe
the same millisecond timestamp. -/
structure KeyGenCall where
  seq : Nat
  timestampMillis : Nat
  deriving DecidableEq

/-- The key produced by one `generate_cache_key` invocation: the code
derives it from the source and the observed timestamp only. -/
def keyOfCall (hash : String → Nat → Nat) (source : String) (c : KeyGenCall) :
    String :=
  generate_cache_key hash source c.timestampMillis

/-- `save_thumbnail` from `src/thumbnail.rs`: generate a key, write the
payload to `<key>.png`, write a sidecar `<key>.meta` with the creation time
and source, return the key and the `base_url/<key>` URL together with the
new directory state.  `keyTimestampMillis` is the `SystemTime::now` read in
`generate_cache_key`; `now` the `Utc::now().timestamp_millis()` recorded in
the metadata. -/
def save_thumbnail (hash : String → Nat → Nat) (base_url : String)
    (keyTimestampMillis : Nat) (now : Int) (dir : CacheDir) (source : String)
    (data : List Nat) : (String × String) × CacheDir :=
  let cache_key := generate_cache_key hash source keyTimestampMillis
  ((cache_key, base_url ++ "/" ++ cache_key),
   { payloads := setEntry cache_key data dir.payloads,
     sidecars :=
       setEntry cache_key
         (some { cached_at := now, source := source, content_hash := none })
         dir.sidecars })

/-- `is_expired` from `src/thumbnail.rs`: a missing sidecar, an unreadable
or unparsable sidecar, or an age strictly above the TTL all count as
expired.  `now` is `Utc::now().timestamp_millis()`; `ttl_millis` the
configured TTL in milliseconds. -/
def is_expired (now ttl_millis : Int) (dir : CacheDir) (cache_key : String) :
    Bool :=
  match lookupKey cache_key dir.sidecars with
  | none => true
  | some none => true
  | some (some metadata) => decide (now - metadata.cached_at > ttl_millis)

/-- `remove_thumbnail` from `src/thumbnail.rs`: delete the payload and the
sidecar if present (idempotent; deletes modelled as succeeding). -/
def remove_thumbnail (dir : CacheDir) (cache_key : String) : CacheDir :=
  { payloads := eraseKey cache_key dir.payloads,
    sidecars := eraseKey cache_key dir.sidecars }

/-- `load_thumbnail` from `src/thumbnail.rs`: not-found error if the payload
file is absent; expired error — after removing both files — if `is_expired`;
otherwise the raw payload bytes.  Returns the result together with the
directory state after the call (reads modelled as succeeding). -/
def load_thumbnail (now ttl_millis : Int) (dir : CacheDir) (cache_key : String) :
    Except String (List Nat) × CacheDir :=
  match lookupKey cache_key dir.payloads with
  | none => (Except.error ("Thumbnail not found: " ++ cache_key), dir)
  | some data =>
      if is_expired now ttl_millis dir cache_key then
        (Except.error ("Thumbnail expired and removed: " ++ cache_key),
         remove_thumbnail dir cache_key)
      else (Except.ok data, dir)

/-- The scan loop of `cleanup_expired`: for each payload key found in the
directory listing, remove the entry (both files) if expired, counting the
removals. -/
def cleanup_loop (now ttl_millis : Int) :
    List String → CacheDir → Nat × CacheDir
  | [], dir => (0, dir)
  | k :: ks, dir =>
      if is_expired now ttl_millis dir k then
        let r := cleanup_loop now ttl_millis ks (remove_thumbnail dir k)
        (r.1 + 1, r.2)
      else cleanup_loop now ttl_millis ks dir

/-- `cleanup_expired` from `src/thumbnail.rs`: scan the directory once —
the files with extension `png`, i.e. the payload entries — and remove every
expired entry, returning how many were removed. -/
def cleanup_expired (now ttl_millis : Int) (dir : CacheDir) : Nat × CacheDir :=
  cleanup_loop now ttl_millis (dir.payloads.map Prod.fst) dir

/-! ## Protocol-handler claims (C1, C2, C10) -/

/-- C2: for every byte payload that is not valid JSON (modelled as the
deserializer returning no value), `handle_mcp` answers with error code
`-32700` and id `null`, whatever the server identity, tool catalog and tool
dispatcher are. -/
theorem malformed_json_yields_parse_error (serverName serverVersion : String)
    (tools : Json) (callTool : Json → Except String Json) :
    handle_mcp serverName serverVersion tools callTool none =
      McpResponse.failure Json.null (-32700) "Parse error: invalid JSON" := rfl

/-- C10: a body that parses as JSON but is not an object (array, string,
number, boolean or bare null — `as_object` fails) is answered with
`-32600` / "Invalid Request: expected a JSON object" and id null, not with
the parse-error code `-32700`. -/
theorem non_object_body_invalid_request (serverName serverVersion : String)
    (tools : Json) (callTool : Json → Except String Json) (value : Json)
    (h : value.asObj = none) :
    handle_mcp serverName serverVersion tools callTool (some value) =
      McpResponse.failure Json.null (-32600)
        "Invalid Request: expected a JSON object" := by
  simp [handle_mcp, parse_rpc_request, h, json_error]

/-- Witness for C10 at the concrete non-object body `[]`. -/
theorem non_object_body_invalid_request_witness :
    (Json.arr []).asObj = none ∧
    handle_mcp "pcli2-mcp-server" "0.1.0" Json.null (fun _ => Except.error "")
        (some (Json.arr [])) =
      McpResponse.failure Json.null (-32600)
        "Invalid Request: expected a JSON object" :=
  ⟨rfl,
   non_object_body_invalid_request "pcli2-mcp-server" "0.1.0" Json.null
     (fun _ => Except.error "") (Json.arr []) rfl⟩

/-- Counterexample to C1 as stated: the claim asserts the empty-body
notification behavior "regardless of method validity: … known …, unknown
…, or absent entirely", but `handle_mcp` checks for a missing `method`
(and for a bad `jsonrpc` version) *before* the null-id notification check,
so a request with absent id and absent method — the concrete body `{}` —
gets a `-32600` error body, and so does an absent-id request with a
`jsonrpc` version other than "2.0". -/
theorem notification_empty_body_counterexample :
    handle_mcp "pcli2-mcp-server" "0.1.0" Json.null (fun _ => Except.error "")
        (some (Json.obj [])) =
      McpResponse.failure Json.null (-32600) "Invalid Request: missing 'method'" ∧
    handle_mcp "pcli2-mcp-server" "0.1.0" Json.null (fun _ => Except.error "")
        (some (Json.obj [("jsonrpc", Json.str "1.0"), ("method", Json.str "ping")])) =
      McpResponse.failure Json.null (-32600) "Invalid jsonrpc version '1.0'" ∧
    McpResponse.failure Json.null (-32600) "Invalid Request: missing 'method'" ≠
      McpResponse.empty := by
  refine ⟨rfl, rfl, fun h => McpResponse.noConfusion h⟩

/-- C1 as amended: for every request body that parses to an envelope with
an absent or null id, a `method` field that *is present* as a string
(naming a known or unknown method alike), and a `jsonrpc` field absent or
equal to "2.0", the response is the empty success status, whatever the
dispatcher would have answered.  (When `method` is absent, or `jsonrpc` is
present and not "2.0", the handler instead returns a `-32600` error body —
see the counterexample.) -/
theorem notification_requests_get_empty_body (serverName serverVersion : String)
    (tools : Json) (callTool : Json → Except String Json) (value : Json)
    (request : RpcRequest)
    (hparse : parse_rpc_request value = Except.ok request)
    (hid : request.id = none ∨ request.id = some Json.null)
    (hver : request.jsonrpc = none ∨ request.jsonrpc = some "2.0")
    (hmethod : request.method ≠ none) :
    handle_mcp serverName serverVersion tools callTool (some value) =
      McpResponse.empty := by
  obtain ⟨m, hm⟩ := Option.ne_none_iff_exists'.mp hmethod
  have hidn : request.id.getD Json.null = Json.null := by
    rcases hid with h | h <;> simp [h]
  simp only [handle_mcp, hparse]
  rcases hver with hv | hv <;>
    simp [hv, handle_after_version, hm, hidn, Json.isNull]

/-- Witness for C1 (amended) at the concrete body
`{"id": null, "method": "no/such/method"}`: an unknown method, null id —
the response is empty. -/
theorem notification_requests_get_empty_body_witness :
    parse_rpc_request
        (Json.obj [("id", Json.null), ("method", Json.str "no/such/method")]) =
      Except.ok
        { jsonrpc := none, id := some Json.null, method := some "no/such/method",
          params := none } ∧
    handle_mcp "pcli2-mcp-server" "0.1.0" Json.null (fun _ => Except.error "")
        (some (Json.obj [("id", Json.null), ("method", Json.str "no/such/method")])) =
      McpResponse.empty :=
  ⟨rfl,
   notification_requests_get_empty_body "pcli2-mcp-server" "0.1.0" Json.null
     (fun _ => Except.error "")
     (Json.obj [("id", Json.null), ("method", Json.str "no/such/method")])
     { jsonrpc := none, id := some Json.null, method := some "no/such/method",
       params := none }
     rfl (Or.inr rfl) (Or.inl rfl) (fun h => Option.noConfusion h)⟩

/-! ## Argument-validation claims (C9, C8) -/

/-- C9: `require_uuid_or_path` fails — with exactly the message
"Missing required argument: provide either 'uuid' or 'path'" — precisely
when neither `uuid` nor `path` is supplied as a string, and succeeds with
the extracted pair whenever at least one is supplied; a call supplying
both is not rejected by this check. -/
theorem require_uuid_or_path_spec (args : Json) :
    (require_uuid_or_path args =
        Except.error "Missing required argument: provide either 'uuid' or 'path'" ↔
      (args.getKey "uuid").bind Json.asStr = none ∧
        (args.getKey "path").bind Json.asStr = none) ∧
    ((args.getKey "uuid").bind Json.asStr ≠ none ∨
        (args.getKey "path").bind Json.asStr ≠ none →
      require_uuid_or_path args =
        Except.ok ((args.getKey "uuid").bind Json.asStr,
          (args.getKey "path").bind Json.asStr)) := by
  constructor
  · cases hu : (args.getKey "uuid").bind Json.asStr <;>
      cases hp : (args.getKey "path").bind Json.asStr <;>
        simp [require_uuid_or_path, hu, hp]
  · intro h
    cases hu : (args.getKey "uuid").bind Json.asStr <;>
      cases hp : (args.getKey "path").bind Json.asStr <;>
        simp_all [require_uuid_or_path, hu, hp]

/-- Witness for C9: with both `uuid` and `path` supplied, the check passes
(returning both), documenting that "exactly one" is not enforced. -/
theorem require_uuid_or_path_spec_witness :
    ((Json.obj [("uuid", Json.str "u-1"), ("path", Json.str "/a/b")]).getKey
          "uuid").bind Json.asStr ≠ none ∧
    require_uuid_or_path (Json.obj [("uuid", Json.str "u-1"), ("path", Json.str "/a/b")]) =
      Except.ok (some "u-1", some "/a/b") := by
  refine ⟨by decide, ?_⟩
  exact ((require_uuid_or_path_spec
    (Json.obj [("uuid", Json.str "u-1"), ("path", Json.str "/a/b")])).2
    (Or.inl (by decide))).trans rfl

/-- The out-of-range message `validate_range_f64` produces for `threshold`
with bounds `[0, 100]`. -/
def threshold_range_message (v : ℚ) : String :=
  "Invalid argument 'threshold': value " ++ formatF64 v ++
    " must be between 0 and 100"

/-- The `-32602` error message each threshold-validating tool surfaces for
an out-of-range `threshold`: the `pcli2_geometric_match` branch of
`call_tool` propagates the validation error verbatim, while the other
three wrap it with their `run_simple_tool` label. -/
def threshold_error_message (toolName : String) (v : ℚ) : String :=
  match toolName with
  | "pcli2_folder_geometric_match" =>
      "pcli2 folder geometric-match failed: " ++ threshold_range_message v
  | "pcli2_folder_part_match" =>
      "pcli2 folder part-match failed: " ++ threshold_range_message v
  | "pcli2_asset_part_match" =>
      "pcli2 asset part-match failed: " ++ threshold_range_message v
  | _ => threshold_range_message v

/-- `validate_range_f64` on `threshold ∈ [0,100]` errors out for any
supplied numeric value outside the range. -/
theorem validate_threshold_out (args : Json) (v : ℚ)
    (hthr : (args.getKey "threshold").bind Json.asF64 = some v)
    (hout : v < 0 ∨ v > 100) :
    validate_range_f64 args "threshold" 0 100 =
      Except.error (threshold_range_message v) := by
  have h0 : formatF64 0 = "0" := by decide
  have h100 : formatF64 100 = "100" := by decide
  simp only [validate_range_f64, hthr, Option.bind_some, threshold_range_message, h0, h100,
    if_pos hout]
  simp [String.append_assoc]

/-- `call_tool` on any of the four threshold-validating tools with an
out-of-range `threshold` fails with that tool's validation message, for
every subprocess collaborator (no subprocess result is consulted). -/
theorem call_tool_threshold_out (runCmd : RunCmd)
    (runThumb : Json → Except String String) (cache : Option (Except String Nat))
    (toolName : String) (args : Json) (v : ℚ)
    (htool : toolName ∈ ["pcli2_geometric_match", "pcli2_folder_geometric_match",
        "pcli2_folder_part_match", "pcli2_asset_part_match"])
    (hthr : (args.getKey "threshold").bind Json.asF64 = some v)
    (hout : v < 0 ∨ v > 100) :
    call_tool runCmd runThumb cache
        (Json.obj [("name", Json.str toolName), ("arguments", args)]) =
      Except.error (threshold_error_message toolName v) := by
  have hval := validate_threshold_out args v hthr hout
  simp only [List.mem_cons, List.mem_singleton, List.not_mem_nil, or_false] at htool
  rcases htool with h | h | h | h <;> subst h
  · have hstep : call_tool runCmd runThumb cache
        (Json.obj [("name", Json.str "pcli2_geometric_match"), ("arguments", args)]) =
        match run_pcli2_asset_geometric_match runCmd args with
        | Except.ok output => Except.ok (textContent output)
        | Except.error e => Except.error e := rfl
    rw [hstep]
    simp [run_pcli2_asset_geometric_match, hval, threshold_error_message]
  · have hstep : call_tool runCmd runThumb cache
        (Json.obj [("name", Json.str "pcli2_folder_geometric_match"), ("arguments", args)]) =
        run_simple_tool "pcli2 folder geometric-match"
          (run_pcli2_folder_geometric_match runCmd args) := rfl
    rw [hstep]
    simp [run_pcli2_folder_geometric_match, hval, run_simple_tool, threshold_error_message]
  · have hstep : call_tool runCmd runThumb cache
        (Json.obj [("name", Json.str "pcli2_folder_part_match"), ("arguments", args)]) =
        run_simple_tool "pcli2 folder part-match"
          (run_pcli2_folder_part_match runCmd args) := rfl
    rw [hstep]
    simp [run_pcli2_folder_part_match, hval, run_simple_tool, threshold_error_message]
  · have hstep : call_tool runCmd runThumb cache
        (Json.obj [("name", Json.str "pcli2_asset_part_match"), ("arguments", args)]) =
        run_simple_tool "pcli2 asset part-match"
          (run_pcli2_asset_part_match runCmd args) := rfl
    rw [hstep]
    simp [run_pcli2_asset_part_match, hval, run_simple_tool, threshold_error_message]

/-- C8: a `tools/call` request naming any threshold-validating tool
(`pcli2_geometric_match`, `pcli2_folder_geometric_match`,
`pcli2_folder_part_match`, `pcli2_asset_part_match`) with a numeric
`threshold` outside `[0, 100]` is answered with a JSON-RPC `-32602` error
whose message states the value must be between 0 and 100.  The statement
is universally quantified over the subprocess collaborator `runCmd`, so
the response is produced without consulting any subprocess: validation
fires before the external program would be invoked. -/
theorem threshold_out_of_range_rejected (runCmd : RunCmd)
    (runThumb : Json → Except String String) (cache : Option (Except String Nat))
    (serverName serverVersion : String) (tools : Json) (id : Json) (args : Json)
    (toolName : String) (v : ℚ)
    (htool : toolName ∈ ["pcli2_geometric_match", "pcli2_folder_geometric_match",
        "pcli2_folder_part_match", "pcli2_asset_part_match"])
    (hthr : (args.getKey "threshold").bind Json.asF64 = some v)
    (hout : v < 0 ∨ v > 100)
    (hid : id.isNull = false) :
    handle_mcp serverName serverVersion tools (call_tool runCmd runThumb cache)
      (some (Json.obj
        [("jsonrpc", Json.str "2.0"), ("id", id),
         ("method", Json.str "tools/call"),
         ("params", Json.obj [("name", Json.str toolName), ("arguments", args)])])) =
      McpResponse.failure id (-32602) (threshold_error_message toolName v) := by
  have hcall := call_tool_threshold_out runCmd runThumb cache toolName args v htool hthr hout
  have hparse : parse_rpc_request
      (Json.obj
        [("jsonrpc", Json.str "2.0"), ("id", id),
         ("method", Json.str "tools/call"),
         ("params", Json.obj [("name", Json.str toolName), ("arguments", args)])]) =
      Except.ok
        { jsonrpc := some "2.0", id := some id, method := some "tools/call",
          params := some (Json.obj [("name", Json.str toolName), ("arguments", args)]) } := rfl
  simp [handle_mcp, hparse, handle_after_version, dispatch_method, hid, hcall, json_error]

/-- Witness for C8 at the concrete request
`tools/call { name: "pcli2_geometric_match", arguments: { threshold: 101 } }`
with id `1`. -/
theorem threshold_out_of_range_rejected_witness :
    ("pcli2_geometric_match" ∈ ["pcli2_geometric_match", "pcli2_folder_geometric_match",
        "pcli2_folder_part_match", "pcli2_asset_part_match"]) ∧
    ((Json.obj [("threshold", Json.num 101)]).getKey "threshold").bind Json.asF64 =
      some 101 ∧
    ((101 : ℚ) < 0 ∨ (101 : ℚ) > 100) ∧
    (Json.num 1).isNull = false ∧
    handle_mcp "pcli2-mcp-server" "0.1.0" Json.null
        (call_tool (fun _ _ => Except.ok "") (fun _ => Except.error "") none)
        (some (Json.obj
          [("jsonrpc", Json.str "2.0"), ("id", Json.num 1),
           ("method", Json.str "tools/call"),
           ("params", Json.obj [("name", Json.str "pcli2_geometric_match"),
             ("arguments", Json.obj [("threshold", Json.num 101)])])])) =
      McpResponse.failure (Json.num 1) (-32602)
        "Invalid argument 'threshold': value 101 must be between 0 and 100" := by
  refine ⟨by decide, rfl, by norm_num, rfl, ?_⟩
  have h := threshold_out_of_range_rejected (fun _ _ => Except.ok "")
    (fun _ => Except.error "") none "pcli2-mcp-server" "0.1.0" Json.null
    (Json.num 1) (Json.obj [("threshold", Json.num 101)])
    "pcli2_geometric_match" 101 (by decide) rfl (by norm_num) rfl
  exact h.trans
    (congrArg (McpResponse.failure (Json.num 1) (-32602)) (by decide))

/-! ## Bounded stream capture (C3) -/

/-- The `read_limited` loop, run from accumulator `buf`, completes with the
whole remaining stream appended whenever the total fits in the limit. -/
theorem read_limited_loop_ok (limit : Nat) (label : String) :
    ∀ (chunks : List (List Nat)) (buf : List Nat),
      (∀ c ∈ chunks, c ≠ []) →
      buf.length + chunks.flatten.length ≤ limit →
      read_limited_loop limit label chunks buf = Except.ok (buf ++ chunks.flatten)
  | [], buf, _, _ => by simp [read_limited_loop]
  | c :: cs, buf, hne, hle => by
    have hc : c ≠ [] := hne c (List.mem_cons_self c cs)
    have hclen : c.length ≠ 0 := fun h => hc (List.length_eq_zero.mp h)
    have hsum : buf.length + (c.length + cs.flatten.length) ≤ limit := by
      simpa [List.flatten_cons, Nat.add_assoc] using hle
    have hstep : ¬ buf.length + c.length > limit := by omega
    have hrec := read_limited_loop_ok limit label cs (buf ++ c)
      (fun d hd => hne d (List.mem_cons_of_mem c hd))
      (by simp only [List.length_append]; omega)
    simp [read_limited_loop, hclen, hstep, hrec, List.flatten_cons,
      List.append_assoc]

/-- The `read_limited` loop aborts with the overflow message naming the
stream label whenever the total would exceed the limit (given that chunks
are nonempty, as reads of a live stream are, and the accumulator has not
yet overflowed). -/
theorem read_limited_loop_overflow (limit : Nat) (label : String) :
    ∀ (chunks : List (List Nat)) (buf : List Nat),
      (∀ c ∈ chunks, c ≠ []) →
      buf.length ≤ limit →
      limit < buf.length + chunks.flatten.length →
      read_limited_loop limit label chunks buf =
        Except.error (overflow_message limit label)
  | [], buf, _, hbuf, hover => by
    simp only [List.flatten_nil, List.length_nil, Nat.add_zero] at hover
    omega
  | c :: cs, buf, hne, hbuf, hover => by
    have hc : c ≠ [] := hne c (List.mem_cons_self c cs)
    have hclen : c.length ≠ 0 := fun h => hc (List.length_eq_zero.mp h)
    by_cases hstep : buf.length + c.length > limit
    · simp [read_limited_loop, hclen, hstep, overflow_message]
    · have hrec := read_limited_loop_overflow limit label cs (buf ++ c)
        (fun d hd => hne d (List.mem_cons_of_mem c hd))
        (by simp only [List.length_append]; omega)
        (by simp only [List.length_append]
            simp only [List.flatten_cons, List.length_append] at hover
            omega)
      simp [read_limited_loop, hclen, hstep, hrec]

/-- C3: for every stream — presented as its nonempty read chunks —
`read_limited` returns the complete stream contents whenever the stream's
total length is at most the limit, and returns the overflow error naming
the stream label exactly when the total exceeds the limit. -/
theorem read_limited_bounded_capture (limit : Nat) (label : String)
    (chunks : List (List Nat)) (hne : ∀ c ∈ chunks, c ≠ []) :
    (chunks.flatten.length ≤ limit →
      read_limited limit label chunks = Except.ok chunks.flatten) ∧
    (limit < chunks.flatten.length →
      read_limited limit label chunks =
        Except.error (overflow_message limit label)) := by
  constructor
  · intro hle
    simpa [read_limited] using
      read_limited_loop_ok limit label chunks [] hne (by simpa using hle)
  · intro hover
    simpa [read_limited] using
      read_limited_loop_overflow limit label chunks [] hne (Nat.zero_le _)
        (by simpa using hover)

/-- Witness for C3: the stream `[1,2,3] ++ [4,5]` overflows a 4-byte limit
with the stdout-labelled message, and is captured whole under a 5-byte
limit. -/
theorem read_limited_bounded_capture_witness :
    (∀ c ∈ [[1, 2, 3], [4, 5]], c ≠ ([] : List Nat)) ∧
    read_limited 4 "stdout" [[1, 2, 3], [4, 5]] =
      Except.error "pcli2 stdout exceeded maximum output size of 4 bytes" ∧
    read_limited 5 "stdout" [[1, 2, 3], [4, 5]] =
      Except.ok [1, 2, 3, 4, 5] := by
  refine ⟨by decide, ?_, ?_⟩
  · exact ((read_limited_bounded_capture 4 "stdout" [[1, 2, 3], [4, 5]]
      (by decide)).2 (by decide)).trans rfl
  · exact ((read_limited_bounded_capture 5 "stdout" [[1, 2, 3], [4, 5]]
      (by decide)).1 (by decide)).trans rfl

/-! ## Thumbnail-cache claims (C4, C5, C6, C7) -/

theorem lookupKey_eraseKey_self {α : Type} (k : String) (l : List (String × α)) :
    lookupKey k (eraseKey k l) = none := by
  induction l with
  | nil => rfl
  | cons p rest ih =>
    obtain ⟨k', v⟩ := p
    by_cases h : k' = k <;> simp [eraseKey, lookupKey, h, ih]

theorem lookupKey_eraseKey_ne {α : Type} (k k' : String) (l : List (String × α))
    (h : k' ≠ k) : lookupKey k' (eraseKey k l) = lookupKey k' l := by
  induction l with
  | nil => rfl
  | cons p rest ih =>
    obtain ⟨k₀, v⟩ := p
    by_cases h₀ : k₀ = k
    · subst h₀
      simp [eraseKey, lookupKey, ih, (show k₀ ≠ k' from fun hc => h hc.symm)]
    · by_cases h₁ : k₀ = k' <;> simp [eraseKey, lookupKey, h₀, h₁, ih, h]

theorem lookupKey_setEntry_self {α : Type} (k : String) (v : α)
    (l : List (String × α)) : lookupKey k (setEntry k v l) = some v := by
  simp [setEntry, lookupKey]

theorem lookupKey_setEntry_ne {α : Type} (k k' : String) (v : α)
    (l : List (String × α)) (h : k' ≠ k) :
    lookupKey k' (setEntry k v l) = lookupKey k' l := by
  simp only [setEntry, lookupKey]
  rw [if_neg (fun hc : k = k' => h hc.symm)]
  exact lookupKey_eraseKey_ne k k' l h

/-- C4: saving a thumbnail and immediately loading the returned key —
at any later instant still within the TTL — returns exactly the saved
bytes. -/
theorem save_then_load_roundtrip (hash : String → Nat → Nat) (base_url : String)
    (tmillis : Nat) (now now' ttl : Int) (dir : CacheDir) (source : String)
    (data : List Nat) (hfresh : now' - now ≤ ttl) :
    (load_thumbnail now' ttl
        (save_thumbnail hash base_url tmillis now dir source data).2
        (save_thumbnail hash base_url tmillis now dir source data).1.1).1 =
      Except.ok data := by
  have hpay : lookupKey (generate_cache_key hash source tmillis)
      (save_thumbnail hash base_url tmillis now dir source data).2.payloads =
      some data := by
    simp [save_thumbnail, lookupKey_setEntry_self]
  have hsc : lookupKey (generate_cache_key hash source tmillis)
      (save_thumbnail hash base_url tmillis now dir source data).2.sidecars =
      some (some { cached_at := now, source := source, content_hash := none }) := by
    simp [save_thumbnail, lookupKey_setEntry_self]
  have hexp : is_expired now' ttl
      (save_thumbnail hash base_url tmillis now dir source data).2
      (generate_cache_key hash source tmillis) = false := by
    simp only [is_expired, hsc]
    simp only [decide_eq_false_iff_not, not_lt]
    omega
  have hkey : (save_thumbnail hash base_url tmillis now dir source data).1.1 =
      generate_cache_key hash source tmillis := rfl
  rw [hkey]
  simp [load_thumbnail, hpay, hexp]

/-- Witness for C4 at a concrete save/load pair (one-hour TTL, load one
minute later). -/
theorem save_then_load_roundtrip_witness :
    (3660000 : Int) - 3600000 ≤ 3600000 ∧
    (load_thumbnail 3660000 3600000
        (save_thumbnail (fun s t => s.length + t) "http://localhost:8080/thumbnail"
          42 3600000 ⟨[], []⟩ "asset-1" [137, 80, 78, 71]).2
        (save_thumbnail (fun s t => s.length + t) "http://localhost:8080/thumbnail"
          42 3600000 ⟨[], []⟩ "asset-1" [137, 80, 78, 71]).1.1).1 =
      Except.ok [137, 80, 78, 71] :=
  ⟨by decide,
   save_then_load_roundtrip (fun s t => s.length + t) "http://localhost:8080/thumbnail"
     42 3600000 3660000 3600000 ⟨[], []⟩ "asset-1" [137, 80, 78, 71] (by decide)⟩

/-- C5: `load_thumbnail` fails with the not-found error when the payload
entry is absent (directory unchanged); fails with the expired error — with
both the payload and the sidecar deleted — when the payload exists but the
entry is expired; otherwise returns the raw payload bytes (directory
unchanged).  Expiry holds exactly when the sidecar is missing, unparsable,
or records an age strictly above the TTL. -/
theorem load_thumbnail_cases (now ttl : Int) (dir : CacheDir) (key : String) :
    (lookupKey key dir.payloads = none →
      load_thumbnail now ttl dir key =
        (Except.error ("Thumbnail not found: " ++ key), dir)) ∧
    (∀ data, lookupKey key dir.payloads = some data →
      is_expired now ttl dir key = true →
      load_thumbnail now ttl dir key =
          (Except.error ("Thumbnail expired and removed: " ++ key),
            remove_thumbnail dir key) ∧
        lookupKey key (remove_thumbnail dir key).payloads = none ∧
        lookupKey key (remove_thumbnail dir key).sidecars = none) ∧
    (∀ data, lookupKey key dir.payloads = some data →
      is_expired now ttl dir key = false →
      load_thumbnail now ttl dir key = (Except.ok data, dir)) ∧
    (is_expired now ttl dir key = true ↔
      lookupKey key dir.sidecars = none ∨ lookupKey key dir.sidecars = some none ∨
        ∃ m, lookupKey key dir.sidecars = some (some m) ∧ now - m.cached_at > ttl) := by
  refine ⟨?_, ?_, ?_, ?_⟩
  · intro h
    simp [load_thumbnail, h]
  · intro data h hexp
    exact ⟨by simp [load_thumbnail, h, hexp],
      by simp [remove_thumbnail, lookupKey_eraseKey_self],
      by simp [remove_thumbnail, lookupKey_eraseKey_self]⟩
  · intro data h hexp
    simp [load_thumbnail, h, hexp]
  · cases hsc : lookupKey key dir.sidecars with
    | none => simp [is_expired, hsc]
    | some o =>
      cases o with
      | none => simp [is_expired, hsc]
      | some m => simp [is_expired, hsc]

/-- Witness for C5: the three outcomes at concrete directories — an empty
directory (not found), an over-age entry (expired, both files deleted), a
fresh entry (bytes returned). -/
theorem load_thumbnail_cases_witness :
    load_thumbnail 100 10 ⟨[], []⟩ "k" =
        (Except.error "Thumbnail not found: k", ⟨[], []⟩) ∧
    load_thumbnail 100 10
        ⟨[("k", [1, 2])], [("k", some { cached_at := 0, source := "s", content_hash := none })]⟩
        "k" =
      (Except.error "Thumbnail expired and removed: k", ⟨[], []⟩) ∧
    load_thumbnail 100 10
        ⟨[("k", [1, 2])], [("k", some { cached_at := 95, source := "s", content_hash := none })]⟩
        "k" =
      (Except.ok [1, 2],
        ⟨[("k", [1, 2])], [("k", some { cached_at := 95, source := "s", content_hash := none })]⟩) := by
  refine ⟨?_, ?_, ?_⟩
  · exact ((load_thumbnail_cases 100 10 ⟨[], []⟩ "k").1 rfl).trans rfl
  · exact (((load_thumbnail_cases 100 10
      ⟨[("k", [1, 2])], [("k", some { cached_at := 0, source := "s", content_hash := none })]⟩
      "k").2.1 [1, 2] rfl (by decide)).1).trans rfl
  · exact ((load_thumbnail_cases 100 10
      ⟨[("k", [1, 2])], [("k", some { cached_at := 95, source := "s", content_hash := none })]⟩
      "k").2.2.1 [1, 2] rfl (by decide)).trans rfl

/-- Removing one entry does not change the expiry status of any other
key (expiry reads only that key's sidecar). -/
theorem is_expired_remove_ne (now ttl : Int) (dir : CacheDir) (k k' : String)
    (h : k' ≠ k) :
    is_expired now ttl (remove_thumbnail dir k) k' = is_expired now ttl dir k' := by
  simp [is_expired, remove_thumbnail, lookupKey_eraseKey_ne k k' _ h]

/-- The scan loop of `cleanup_expired`, specified: over a duplicate-free
key list it removes exactly the expired keys (both entries), counts them,
and leaves every other lookup unchanged. -/
theorem cleanup_loop_spec (now ttl : Int) :
    ∀ (ks : List String) (dir : CacheDir), ks.Nodup →
      (cleanup_loop now ttl ks dir).1 =
          (ks.filter (fun k => is_expired now ttl dir k)).length ∧
      ∀ k', ((k' ∈ ks ∧ is_expired now ttl dir k' = true) →
               lookupKey k' (cleanup_loop now ttl ks dir).2.payloads = none ∧
               lookupKey k' (cleanup_loop now ttl ks dir).2.sidecars = none) ∧
             (¬(k' ∈ ks ∧ is_expired now ttl dir k' = true) →
               lookupKey k' (cleanup_loop now ttl ks dir).2.payloads =
                   lookupKey k' dir.payloads ∧
                 lookupKey k' (cleanup_loop now ttl ks dir).2.sidecars =
                   lookupKey k' dir.sidecars)
  | [], dir, _ => by simp [cleanup_loop]
  | k :: ks, dir, hnodup => by
    have hk_not_mem : k ∉ ks := (List.nodup_cons.mp hnodup).1
    have hnd : ks.Nodup := (List.nodup_cons.mp hnodup).2
    by_cases hexp : is_expired now ttl dir k = true
    · -- the head key is expired: it is removed, then the loop continues
      have ih := cleanup_loop_spec now ttl ks (remove_thumbnail dir k) hnd
      have hsame : ∀ k₀ ∈ ks,
          is_expired now ttl (remove_thumbnail dir k) k₀ = is_expired now ttl dir k₀ :=
        fun k₀ hk₀ =>
          is_expired_remove_ne now ttl dir k k₀ (fun hc => hk_not_mem (hc ▸ hk₀))
      have hloop : cleanup_loop now ttl (k :: ks) dir =
          ((cleanup_loop now ttl ks (remove_thumbnail dir k)).1 + 1,
           (cleanup_loop now ttl ks (remove_thumbnail dir k)).2) := by
        simp [cleanup_loop, hexp]
      constructor
      · rw [hloop, ih.1, List.filter_congr hsame]
        simp [List.filter_cons, hexp, Nat.add_comm]
      · intro k'
        constructor
        · rintro ⟨hmem, hkexp⟩
          rw [hloop]
          rcases List.mem_cons.mp hmem with hk' | hk'
          · subst hk'
            have hnot : ¬(k' ∈ ks ∧ is_expired now ttl (remove_thumbnail dir k') k' = true) :=
              fun hc => hk_not_mem hc.1
            have hunch := (ih.2 k').2 hnot
            rw [hunch.1, hunch.2]
            exact ⟨by simp [remove_thumbnail, lookupKey_eraseKey_self],
              by simp [remove_thumbnail, lookupKey_eraseKey_self]⟩
          · exact (ih.2 k').1 ⟨hk', (hsame k' hk').trans hkexp⟩
        · intro hnot
          rw [hloop]
          have hk'ne : k' ≠ k := by
            rintro rfl
            exact hnot ⟨List.mem_cons_self k' ks, hexp⟩
          have hnot' : ¬(k' ∈ ks ∧ is_expired now ttl (remove_thumbnail dir k) k' = true) := by
            rintro ⟨hmem, hkexp⟩
            exact hnot ⟨List.mem_cons_of_mem k hmem, (hsame k' hmem).symm.trans hkexp⟩
          have hunch := (ih.2 k').2 hnot'
          rw [hunch.1, hunch.2]
          exact ⟨by simp [remove_thumbnail, lookupKey_eraseKey_ne k k' _ hk'ne],
            by simp [remove_thumbnail, lookupKey_eraseKey_ne k k' _ hk'ne]⟩
    · -- the head key is not expired: nothing happens to it
      have ih := cleanup_loop_spec now ttl ks dir hnd
      have hloop : cleanup_loop now ttl (k :: ks) dir = cleanup_loop now ttl ks dir := by
        simp [cleanup_loop, hexp]
      constructor
      · rw [hloop, ih.1]
        simp [List.filter_cons, hexp]
      · intro k'
        constructor
        · rintro ⟨hmem, hkexp⟩
          rw [hloop]
          rcases List.mem_cons.mp hmem with hk' | hk'
          · exact absurd (hk' ▸ hkexp) hexp
          · exact (ih.2 k').1 ⟨hk', hkexp⟩
        · intro hnot
          rw [hloop]
          exact (ih.2 k').2 (fun hc => hnot ⟨List.mem_cons_of_mem k hc.1, hc.2⟩)

/-- C7: over a cache directory whose payload filenames are distinct (as
filesystem directory listings are), `cleanup_expired` returns exactly the
number of expired payload entries, deletes payload and sidecar of every
expired entry, and leaves the entries of every other key — non-expired
payloads and keys without payloads alike — untouched. -/
theorem cleanup_expired_exact (now ttl : Int) (dir : CacheDir)
    (hnodup : (dir.payloads.map Prod.fst).Nodup) :
    (cleanup_expired now ttl dir).1 =
        ((dir.payloads.map Prod.fst).filter
          (fun k => is_expired now ttl dir k)).length ∧
    ∀ k, (k ∈ dir.payloads.map Prod.fst ∧ is_expired now ttl dir k = true →
            lookupKey k (cleanup_expired now ttl dir).2.payloads = none ∧
            lookupKey k (cleanup_expired now ttl dir).2.sidecars = none) ∧
         (¬(k ∈ dir.payloads.map Prod.fst ∧ is_expired now ttl dir k = true) →
            lookupKey k (cleanup_expired now ttl dir).2.payloads =
                lookupKey k dir.payloads ∧
              lookupKey k (cleanup_expired now ttl dir).2.sidecars =
                lookupKey k dir.sidecars) := by
  have h := cleanup_loop_spec now ttl (dir.payloads.map Prod.fst) dir hnodup
  exact ⟨h.1, fun k => (h.2 k)⟩

/-- Witness for C7: a directory with one expired and one fresh entry —
exactly one removal is counted, the expired key's files are gone, the
fresh key's files are untouched. -/
theorem cleanup_expired_exact_witness :
    ((⟨[("a", [1]), ("b", [2])],
        [("a", some { cached_at := 0, source := "sa", content_hash := none }),
         ("b", some { cached_at := 95, source := "sb", content_hash := none })]⟩ :
          CacheDir).payloads.map Prod.fst).Nodup ∧
    (cleanup_expired 100 10
        ⟨[("a", [1]), ("b", [2])],
         [("a", some { cached_at := 0, source := "sa", content_hash := none }),
          ("b", some { cached_at := 95, source := "sb", content_hash := none })]⟩).1 = 1 ∧
    lookupKey "a" (cleanup_expired 100 10
        ⟨[("a", [1]), ("b", [2])],
         [("a", some { cached_at := 0, source := "sa", content_hash := none }),
          ("b", some { cached_at := 95, source := "sb", content_hash := none })]⟩).2.payloads =
      none ∧
    lookupKey "b" (cleanup_expired 100 10
        ⟨[("a", [1]), ("b", [2])],
         [("a", some { cached_at := 0, source := "sa", content_hash := none }),
          ("b", some { cached_at := 95, source := "sb", content_hash := none })]⟩).2.payloads =
      some [2] := by
  have h := cleanup_expired_exact 100 10
    ⟨[("a", [1]), ("b", [2])],
     [("a", some { cached_at := 0, source := "sa", content_hash := none }),
      ("b", some { cached_at := 95, source := "sb", content_hash := none })]⟩ (by decide)
  refine ⟨by decide, h.1.trans (by decide), ((h.2 "a").1 ⟨by decide, by decide⟩).1, ?_⟩
  exact (((h.2 "b").2 (by decide)).1).trans rfl

/-- Decode a little-endian base-16 digit list (inverse of `padDigits`,
used only in the statements/proofs, not part of the embedding). -/
def decodeDigits : List Nat → Nat
  | [] => 0
  | d :: ds => d + 16 * decodeDigits ds

theorem decodeDigits_padDigits (k : Nat) : ∀ n : Nat,
    decodeDigits (padDigits k n) = n % 16 ^ k := by
  induction k with
  | zero => intro n; simp [padDigits, decodeDigits, Nat.mod_one]
  | succ k ih =>
    intro n
    simp only [padDigits, decodeDigits, ih]
    rw [pow_succ', Nat.mod_mul]

theorem padDigits_lt (k : Nat) : ∀ (n : Nat), ∀ d ∈ padDigits k n, d < 16 := by
  induction k with
  | zero => intro n d hd; simp [padDigits] at hd
  | succ k ih =>
    intro n d hd
    rcases List.mem_cons.mp hd with h | h
    · exact h ▸ Nat.mod_lt n (by norm_num)
    · exact ih (n / 16) d h

theorem hexChar_inj_lt : ∀ a < 16, ∀ b < 16, hexChar a = hexChar b → a = b := by
  decide

theorem map_hexChar_inj : ∀ (xs ys : List Nat), (∀ x ∈ xs, x < 16) →
    (∀ y ∈ ys, y < 16) → xs.map hexChar = ys.map hexChar → xs = ys
  | [], [], _, _, _ => rfl
  | [], _ :: _, _, _, h => by simp at h
  | _ :: _, [], _, _, h => by simp at h
  | x :: xs, y :: ys, hx, hy, h => by
    simp only [List.map_cons, List.cons.injEq] at h
    have h1 := hexChar_inj_lt x (hx x (List.mem_cons_self x xs)) y
      (hy y (List.mem_cons_self y ys)) h.1
    have h2 := map_hexChar_inj xs ys (fun a ha => hx a (List.mem_cons_of_mem x ha))
      (fun a ha => hy a (List.mem_cons_of_mem y ha)) h.2
    rw [h1, h2]

/-- `format!("{:016x}", ·)` is injective on 64-bit values: equal keys force
equal hash values. -/
theorem toHex16_inj (n m : Nat) (hn : n < 2 ^ 64) (hm : m < 2 ^ 64)
    (h : toHex16 n = toHex16 m) : n = m := by
  have hlist : (padDigits 16 n).reverse.map hexChar =
      (padDigits 16 m).reverse.map hexChar := congrArg String.data h
  have hrev : (padDigits 16 n).reverse = (padDigits 16 m).reverse :=
    map_hexChar_inj _ _
      (fun d hd => padDigits_lt 16 n d (List.mem_reverse.mp hd))
      (fun d hd => padDigits_lt 16 m d (List.mem_reverse.mp hd)) hlist
  have hpad : padDigits 16 n = padDigits 16 m := List.reverse_injective hrev
  have hdec := congrArg decodeDigits hpad
  rw [decodeDigits_padDigits, decodeDigits_padDigits] at hdec
  have h16 : (16 : Nat) ^ 16 = 2 ^ 64 := by norm_num
  rwa [h16, Nat.mod_eq_of_lt hn, Nat.mod_eq_of_lt hm] at hdec

/-- Counterexample to C6 as stated: the key depends on the call only
through the source and the observed *millisecond* timestamp, so two
distinct calls (`seq` 0 and 1) that fall in the same millisecond produce
the identical key — repeated saves for the same source can collide.  (This
holds for every hash function, hence in particular for the deterministic,
unkeyed `DefaultHasher` the code uses; it is shown at one concrete
model hash.) -/
theorem cache_key_same_millisecond_collision :
    (⟨0, 1700000000000⟩ : KeyGenCall) ≠ (⟨1, 1700000000000⟩ : KeyGenCall) ∧
    keyOfCall (fun s t => s.length + t) "asset-1" ⟨0, 1700000000000⟩ =
      keyOfCall (fun s t => s.length + t) "asset-1" ⟨1, 1700000000000⟩ :=
  ⟨by decide, rfl⟩

/-- C6 as amended: for a fixed source, the cache key is a function of the
observed millisecond timestamp through the 64-bit hash value alone — two
key generations collide exactly when their hash values agree modulo
`2^64`; in particular any two calls observing the same millisecond
timestamp always produce the same key, so distinctness of repeated keys is
*not* guaranteed by construction (it holds only as far as the hashed
inputs and the 64-bit hash outputs differ). -/
theorem generate_cache_key_collision_iff (hash : String → Nat → Nat)
    (source : String) :
    (∀ t1 t2 : Nat,
      generate_cache_key hash source t1 = generate_cache_key hash source t2 ↔
        hash source t1 % 2 ^ 64 = hash source t2 % 2 ^ 64) ∧
    (∀ c1 c2 : KeyGenCall, c1.timestampMillis = c2.timestampMillis →
      keyOfCall hash source c1 = keyOfCall hash source c2) := by
  constructor
  · intro t1 t2
    constructor
    · intro h
      exact toHex16_inj _ _ (Nat.mod_lt _ (by norm_num)) (Nat.mod_lt _ (by norm_num)) h
    · intro h
      exact congrArg toHex16 h
  · intro c1 c2 h
    simp [keyOfCall, generate_cache_key, h]

/-- Witness for C6 (amended): two same-millisecond call events with
distinct sequence numbers, shown to collide by the theorem. -/
theorem generate_cache_key_collision_iff_witness :
    (⟨0, 1700000000001⟩ : KeyGenCall).timestampMillis =
      (⟨7, 1700000000001⟩ : KeyGenCall).timestampMillis ∧
    keyOfCall (fun s t => s.length * 31 + t) "part.stl" ⟨0, 1700000000001⟩ =
      keyOfCall (fun s t => s.length * 31 + t) "part.stl" ⟨7, 1700000000001⟩ :=
  ⟨rfl,
   (generate_cache_key_collision_iff (fun s t => s.length * 31 + t) "part.stl").2
     ⟨0, 1700000000001⟩ ⟨7, 1700000000001⟩ rfl⟩
